import Mathlib

/-!
Shallow embedding of `src/sentry/integrations/jira_server/client.py`:
two HTTP client classes (`JiraServerSetupClient` driving the OAuth1
three-legged handshake, `JiraServerClient` for steady-state signed calls).

External collaborators (the generic `ApiClient` transport, the process
cache store, `jwt.encode`, Django's `reverse`, `absolute_uri`, and the
`hashlib.md5` digest) are modelled as explicit parameters.  Network
traffic is made observable: each operation returns, besides its result,
the list of HTTP requests it issued and (for `get_cached`) the list of
cache writes it performed.
-/

/-- A small universe of Python values, enough for the response objects,
cached values and request bodies this module handles. -/
inductive PyValue where
  | pnone
  | pstr (s : String)
  | plist (xs : List PyValue)
  | pdict (xs : List (String × PyValue))
  | pbool (b : Bool)
  | pint (n : Int)
deriving Repr

/-- Python truthiness (`bool(v)`) for the values of `PyValue`. -/
def pyTruthy : PyValue → Bool
  | .pnone => false
  | .pstr s => !(s == "")
  | .plist xs => !xs.isEmpty
  | .pdict xs => !xs.isEmpty
  | .pbool b => b
  | .pint n => !(n == 0)

/-- `.text` attribute access on a response object: the raw body string
(`allow_text=True` responses carry their body as a string). -/
def pyText : PyValue → String
  | .pstr s => s
  | _ => ""

/-- Errors this layer can raise: the transport's signalling `ApiError`
and Python's `KeyError` from a missing dict key. -/
inductive PyErr where
  | apiError (msg : String)
  | keyError (key : String)
deriving Repr, DecidableEq

/-- `requests_oauthlib.OAuth1` as a record of its construction
parameters (the actual signing bytes live in the external library). -/
structure OAuth1 where
  client_key : Option String := none
  resource_owner_key : Option String := none
  resource_owner_secret : Option String := none
  verifier : Option String := none
  rsa_key : Option String := none
  signature_method : String := "HMAC-SHA1"
  signature_type : String := "AUTH_HEADER"
deriving Repr, DecidableEq

/-- `oauthlib.oauth1.SIGNATURE_RSA`. -/
def SIGNATURE_RSA : String := "RSA-SHA1"

/-- One outbound HTTP request handed to the generic transport.
`auth = none` means the `auth` keyword was absent; `auth = some a`
means it was passed explicitly with value `a` (possibly `none`,
i.e. Python `None`). -/
structure ApiRequest where
  method : String
  path : String
  params : List (String × String) := []
  data : Option PyValue := none
  auth : Option (Option OAuth1) := none
  allow_text : Bool := false
deriving Repr

/-- Python dict lookup `d[k]` on an association list (first binding
wins, as in a dict where keys are unique). -/
def dictLookup (d : List (String × String)) (k : String) : Option String :=
  (d.find? (fun p => p.1 == k)).map (fun p => p.2)

/-- `d[k]`, raising `KeyError` when the key is absent. -/
def requireKey (d : List (String × String)) (k : String) : Except PyErr String :=
  match dictLookup d k with
  | some v => .ok v
  | none => .error (.keyError k)

/-- Insert one pair into a dict, overriding an existing binding in
place (Python dict update semantics: first-insertion order kept). -/
def dictInsert (d : List (String × String)) (k v : String) :
    List (String × String) :=
  if d.any (fun p => p.1 == k) then
    d.map (fun p => if p.1 == k then (k, v) else p)
  else
    d ++ [(k, v)]

/-- `dict(pairs)`: fold the pairs left to right, later values
overriding earlier ones for the same key. -/
def dictOf (pairs : List (String × String)) : List (String × String) :=
  pairs.foldl (fun d p => dictInsert d p.1 p.2) []

/-- Numeric value of a hex digit, if any. -/
def hexVal (c : Char) : Option Nat :=
  if '0' ≤ c ∧ c ≤ '9' then some (c.toNat - '0'.toNat)
  else if 'a' ≤ c ∧ c ≤ 'f' then some (c.toNat - 'a'.toNat + 10)
  else if 'A' ≤ c ∧ c ≤ 'F' then some (c.toNat - 'A'.toNat + 10)
  else none

/-- Percent-decoding as done by `urllib.unquote`: a `%` followed by two
hex digits becomes the corresponding byte; anything else is literal. -/
def percentDecode : List Char → List Char
  | [] => []
  | '%' :: c1 :: c2 :: rest =>
    match hexVal c1, hexVal c2 with
    | some h1, some h2 => Char.ofNat (16 * h1 + h2) :: percentDecode rest
    | _, _ => '%' :: percentDecode (c1 :: c2 :: rest)
  | c :: rest => c :: percentDecode rest

/-- `unquote(s.replace('+', ' '))` on a field of a query string. -/
def unquotePlus (cs : List Char) : String :=
  String.mk (percentDecode (cs.map (fun c => if c = '+' then ' ' else c)))

/-- Split a query string on the pair separators `&` and `;`
(`urlparse.parse_qsl` accepts both). -/
def splitSeps : List Char → List (List Char)
  | [] => [[]]
  | c :: rest =>
    let r := splitSeps rest
    if c = '&' ∨ c = ';' then [] :: r
    else
      match r with
      | [] => [[c]]
      | g :: gs => (c :: g) :: gs

/-- Split a segment on its first `=`, if any. -/
def splitEq1 : List Char → Option (List Char × List Char)
  | [] => none
  | c :: rest =>
    if c = '=' then some ([], rest)
    else (splitEq1 rest).map (fun p => (c :: p.1, p.2))

/-- `urlparse.parse_qsl(s)` with default flags: empty segments are
skipped, segments without `=` are skipped, pairs with an empty value
are dropped (`keep_blank_values=False`), and both name and value are
plus-and-percent decoded. -/
def parse_qsl (s : String) : List (String × String) :=
  (splitSeps s.data).foldr
    (fun seg acc =>
      if seg.isEmpty then acc
      else
        match splitEq1 seg with
        | none => acc
        | some (n, v) =>
          if v.isEmpty then acc
          else (unquotePlus n, unquotePlus v) :: acc)
    []

/-! ### JiraServerSetupClient -/

/-- Constructor state of `JiraServerSetupClient`. -/
structure JiraServerSetupClient where
  base_url : String
  consumer_key : String
  private_key : String
  verify_ssl : Bool := true
deriving Repr

/-- `request_token_url.format(base_url)`. -/
def JiraServerSetupClient.request_token_url (base_url : String) : String :=
  base_url ++ "/plugins/servlet/oauth/request-token"

/-- `access_token_url.format(base_url)`. -/
def JiraServerSetupClient.access_token_url (base_url : String) : String :=
  base_url ++ "/plugins/servlet/oauth/access-token"

/-- `authorize_url.format(base_url, token)`. -/
def JiraServerSetupClient.authorize_url_fmt (base_url token : String) : String :=
  base_url ++ "/plugins/servlet/oauth/authorize?oauth_token=" ++ token

/-- `JiraServerSetupClient.request`: when the caller supplied no `auth`
keyword, sign with a consumer-only OAuth1 (RSA-SHA1, header placement);
an explicitly supplied `auth` is forwarded unchanged.  Returns the
`auth` value actually handed to the underlying `_request`. -/
def JiraServerSetupClient.request (c : JiraServerSetupClient)
    (kwargs_auth : Option (Option OAuth1)) : Option OAuth1 :=
  match kwargs_auth with
  | some a => a
  | none =>
    some { client_key := some c.consumer_key,
           rsa_key := some c.private_key,
           signature_method := SIGNATURE_RSA,
           signature_type := "auth_header" }

/-- Step 1: `get_request_token` POSTs (unsigned by the caller; the
`request` override signs it) to the request-token URL and parses the
URL-encoded body. -/
def JiraServerSetupClient.get_request_token (c : JiraServerSetupClient)
    (transport : ApiRequest → PyValue) :
    List (String × String) × List ApiRequest :=
  let call : ApiRequest :=
    { method := "POST",
      path := JiraServerSetupClient.request_token_url c.base_url,
      allow_text := true }
  (dictOf (parse_qsl (pyText (transport call))), [call])

/-- Step 2: `get_authorize_url` is pure string construction from the
request token's `oauth_token`; a missing key is a `KeyError`. -/
def JiraServerSetupClient.get_authorize_url (c : JiraServerSetupClient)
    (request_token : List (String × String)) : Except PyErr String :=
  match dictLookup request_token "oauth_token" with
  | none => .error (.keyError "oauth_token")
  | some t => .ok (JiraServerSetupClient.authorize_url_fmt c.base_url t)

/-- Python falsiness of the `verifier` argument (`not verifier`):
absent (`None`) or the empty string. -/
def optStrFalsy : Option String → Bool
  | none => true
  | some s => s == ""

/-- Step 3: `get_access_token` raises `ApiError` on a falsy verifier
before anything else; otherwise it builds the OAuth1 from the request
token pair plus verifier, POSTs to the access-token URL and parses the
URL-encoded body.  Second component: the HTTP requests issued. -/
def JiraServerSetupClient.get_access_token (c : JiraServerSetupClient)
    (transport : ApiRequest → PyValue)
    (request_token : List (String × String)) (verifier : Option String) :
    Except PyErr (List (String × String)) × List ApiRequest :=
  if optStrFalsy verifier then
    (.error (.apiError "Missing OAuth token verifier"), [])
  else
    match dictLookup request_token "oauth_token" with
    | none => (.error (.keyError "oauth_token"), [])
    | some tok =>
      match dictLookup request_token "oauth_token_secret" with
      | none => (.error (.keyError "oauth_token_secret"), [])
      | some sec =>
        let auth : OAuth1 :=
          { client_key := some c.consumer_key,
            resource_owner_key := some tok,
            resource_owner_secret := some sec,
            verifier := verifier,
            rsa_key := some c.private_key,
            signature_method := SIGNATURE_RSA,
            signature_type := "auth_header" }
        let call : ApiRequest :=
          { method := "POST",
            path := JiraServerSetupClient.access_token_url c.base_url,
            auth := some (some auth),
            allow_text := true }
        (.ok (dictOf (parse_qsl (pyText (transport call)))), [call])

/-- `create_issue_webhook`: sign with the access-token credentials from
the `credentials` dict, build the callback URL around a JWT of
`{id: external_id}` signed with `secret`, and POST the registration
body.  `jwt_encode`, `reverse_issue_updated` (Django URL reversal for
`sentry-extensions-jiraserver-issue-updated`) and `absolute_uri` are
external collaborators passed in. -/
def JiraServerSetupClient.create_issue_webhook
    (jwt_encode : List (String × String) → String → String)
    (reverse_issue_updated : String → String)
    (absolute_uri : String → String)
    (transport : ApiRequest → PyValue)
    (external_id secret : String)
    (credentials : List (String × String)) :
    Except PyErr (PyValue × List ApiRequest) := do
  let ck ← requireKey credentials "consumer_key"
  let pk ← requireKey credentials "private_key"
  let atk ← requireKey credentials "access_token"
  let ats ← requireKey credentials "access_token_secret"
  let auth : OAuth1 :=
    { client_key := some ck,
      rsa_key := some pk,
      resource_owner_key := some atk,
      resource_owner_secret := some ats,
      signature_method := SIGNATURE_RSA,
      signature_type := "auth_header" }
  let token := jwt_encode [("id", external_id)] secret
  let path := reverse_issue_updated token
  let data : PyValue :=
    .pdict [("name", .pstr "Sentry Issue Sync"),
            ("url", .pstr (absolute_uri path)),
            ("events", .plist [.pstr "jira:issue_created",
                               .pstr "jira:issue_updated"])]
  let call : ApiRequest :=
    { method := "POST",
      path := "/rest/webhooks/1.0/webhook",
      data := some data,
      auth := some (some auth) }
  return (transport call, [call])

/-! ### JiraServerClient -/

/-- `installation.default_identity`: carries the credential dict. -/
structure Identity where
  data : List (String × String)
deriving Repr

/-- The externally owned installation record: `default_identity` plus
the `model.metadata` fields this client reads. -/
structure Installation where
  default_identity : Identity
  metadata_base_url : String
  metadata_verify_ssl : Bool
deriving Repr

def META_URL : String := "/rest/api/2/issue/createmeta"
def PRIORITIES_URL : String := "/rest/api/2/priority"
def SEARCH_URL : String := "/rest/api/2/search/"

/-- `VERSIONS_URL % project`. -/
def VERSIONS_URL_fmt (project : String) : String :=
  "/rest/api/2/project/" ++ project ++ "/versions"

/-- `ISSUE_URL % issue_id`. -/
def ISSUE_URL_fmt (issue_id : String) : String :=
  "/rest/api/2/issue/" ++ issue_id

/-- `JiraServerClient.request`: when the caller supplied no `auth`
keyword, read `self.identity.data` (the installation's current
identity) and sign with the full four-credential OAuth1; an explicit
`auth` is forwarded unchanged.  Returns the `auth` value handed to the
underlying `_request`; lookups of the four keys happen in the order
the `OAuth1(...)` keyword arguments are evaluated. -/
def JiraServerClient.request (inst : Installation)
    (kwargs_auth : Option (Option OAuth1)) : Except PyErr (Option OAuth1) :=
  match kwargs_auth with
  | some a => .ok a
  | none => do
    let auth_data := inst.default_identity.data
    let ck ← requireKey auth_data "consumer_key"
    let pk ← requireKey auth_data "private_key"
    let atk ← requireKey auth_data "access_token"
    let ats ← requireKey auth_data "access_token_secret"
    return some
      { client_key := some ck,
        rsa_key := some pk,
        resource_owner_key := some atk,
        resource_owner_secret := some ats,
        signature_method := SIGNATURE_RSA,
        signature_type := "auth_header" }

/-- The `':'.join(bits)` inside the module-level `md5` helper. -/
def md5_input (bits : List String) : String := String.intercalate ":" bits

/-- The cache key of `get_cached`:
`'sentry-jira-server:' + md5(full_url, base_url).hexdigest()`.
The MD5 hexdigest itself lives in `hashlib`; it is passed in as the
`digest` collaborator. -/
def cacheKey (digest : String → String) (full_url base_url : String) :
    String :=
  "sentry-jira-server:" ++ digest (md5_input [full_url, base_url])

/-- `cache.get(key)`: `None` when the key is absent. -/
def cache_get (store : List (String × PyValue)) (k : String) : PyValue :=
  match store.find? (fun p => p.1 == k) with
  | some p => p.2
  | none => .pnone

/-- A record of one `cache.set(key, value, timeout)` call. -/
structure CacheSet where
  key : String
  value : PyValue
  timeout : Nat
deriving Repr

/-- `get_cached(full_url)`: compute the key, read the cache; a falsy
cached value (including `None` on a true miss) triggers a GET of
`full_url` and a `cache.set` with a 60-second timeout.  Returns the
result, the HTTP requests issued and the cache writes performed. -/
def JiraServerClient.get_cached (inst : Installation)
    (digest : String → String) (store : List (String × PyValue))
    (transport : ApiRequest → PyValue) (full_url : String) :
    PyValue × List ApiRequest × List CacheSet :=
  let key := cacheKey digest full_url inst.metadata_base_url
  let cached_result := cache_get store key
  if pyTruthy cached_result then
    (cached_result, [], [])
  else
    let call : ApiRequest := { method := "GET", path := full_url }
    let fresh := transport call
    (fresh, [call], [{ key := key, value := fresh, timeout := 60 }])

/-- `get_valid_statuses`: unimplemented stub. -/
def JiraServerClient.get_valid_statuses (inst : Installation) :
    List PyValue × List ApiRequest := ([], [])

/-- `get_projects_list`: unimplemented stub. -/
def JiraServerClient.get_projects_list (inst : Installation) :
    List PyValue × List ApiRequest := ([], [])

/-- `get_priorities`: cached GET of the priority endpoint. -/
def JiraServerClient.get_priorities (inst : Installation)
    (digest : String → String) (store : List (String × PyValue))
    (transport : ApiRequest → PyValue) :
    PyValue × List ApiRequest × List CacheSet :=
  JiraServerClient.get_cached inst digest store transport PRIORITIES_URL

/-- `get_versions(project)`: cached GET of the per-project versions
endpoint. -/
def JiraServerClient.get_versions (inst : Installation)
    (digest : String → String) (store : List (String × PyValue))
    (transport : ApiRequest → PyValue) (project : String) :
    PyValue × List ApiRequest × List CacheSet :=
  JiraServerClient.get_cached inst digest store transport
    (VERSIONS_URL_fmt project)

/-- ASCII letter, the character class `[A-Za-z]`. -/
def isAsciiLetter (c : Char) : Bool :=
  (decide ('A' ≤ c) && decide (c ≤ 'Z')) ||
  (decide ('a' ≤ c) && decide (c ≤ 'z'))

/-- ASCII digit, the character class `\d` (bytes pattern, no Unicode
flag). -/
def isAsciiDigit (c : Char) : Bool :=
  decide ('0' ≤ c) && decide (c ≤ '9')

/-- `re.search(r'^[A-Za-z]+-\d+$', query)` on the character list:
one or more letters, a hyphen, one or more digits, then the end of the
string — where, per Python's un-anchored-`$` semantics, a single
trailing newline is also accepted.  Greedy matching without
backtracking is exact here because the letter, hyphen and digit
classes are disjoint. -/
def matchIssueChars (cs : List Char) : Bool :=
  let letters := cs.takeWhile isAsciiLetter
  match cs.dropWhile isAsciiLetter with
  | '-' :: rest2 =>
    let digits := rest2.takeWhile isAsciiDigit
    let rest3 := rest2.dropWhile isAsciiDigit
    !letters.isEmpty && !digits.isEmpty && (rest3 == [] || rest3 == ['\n'])
  | _ => false

/-- The issue-id pattern test of `search_issues`. -/
def matchesIssuePattern (q : String) : Bool := matchIssueChars q.data

/-- `query.replace('"', '\\"')`: each double quote becomes
backslash-quote. -/
def escapeQuoteChar (c : Char) : List Char :=
  if c = '"' then ['\\', '"'] else [c]

/-- The whole-string quote escaping used in both JQL branches. -/
def escapeQuotes (s : String) : String :=
  String.mk ((s.data.map escapeQuoteChar).flatten)

/-- The JQL clause `search_issues` builds for a query. -/
def searchJql (query : String) : String :=
  if matchesIssuePattern query then
    "id=\"" ++ escapeQuotes query ++ "\""
  else
    "text ~ \"" ++ escapeQuotes query ++ "\""

/-- `search_issues(query)`: classify the query, build the JQL clause
and GET the search endpoint with it (uncached). -/
def JiraServerClient.search_issues (inst : Installation)
    (transport : ApiRequest → PyValue) (query : String) :
    PyValue × List ApiRequest :=
  let call : ApiRequest :=
    { method := "GET", path := SEARCH_URL,
      params := [("jql", searchJql query)] }
  (transport call, [call])

/-- `get_issue(issue_id)`: uncached GET of one issue. -/
def JiraServerClient.get_issue (inst : Installation)
    (transport : ApiRequest → PyValue) (issue_id : String) :
    PyValue × List ApiRequest :=
  let call : ApiRequest :=
    { method := "GET", path := ISSUE_URL_fmt issue_id }
  (transport call, [call])

/-- `get_create_meta(project)`: GET createmeta, always expanding
`projects.issuetypes.fields`, adding `projectIds` only when a project
was given. -/
def JiraServerClient.get_create_meta (inst : Installation)
    (transport : ApiRequest → PyValue) (project : Option String) :
    PyValue × List ApiRequest :=
  let params :=
    match project with
    | none => [("expand", "projects.issuetypes.fields")]
    | some p => [("expand", "projects.issuetypes.fields"), ("projectIds", p)]
  let call : ApiRequest := { method := "GET", path := META_URL, params := params }
  (transport call, [call])

/-! ### Example fixtures used by witnesses -/

/-- A concrete setup client for concrete evaluations. -/
def exampleSetup : JiraServerSetupClient :=
  { base_url := "https://jira.example.com",
    consumer_key := "sentry-consumer",
    private_key := "PEMKEY" }

/-- A concrete installation whose identity holds one credential set. -/
def exampleInstallation : Installation :=
  { default_identity :=
      { data := [("consumer_key", "ck1"), ("private_key", "pk1"),
                 ("access_token", "at1"), ("access_token_secret", "as1")] },
    metadata_base_url := "https://jira.example.com",
    metadata_verify_ssl := true }

/-- The same installation after its identity credentials were rotated. -/
def exampleInstallationRotated : Installation :=
  { default_identity :=
      { data := [("consumer_key", "ck2"), ("private_key", "pk2"),
                 ("access_token", "at2"), ("access_token_secret", "as2")] },
    metadata_base_url := "https://jira.example.com",
    metadata_verify_ssl := true }

/-- A transport stub whose responses carry a fixed token form body. -/
def exampleTransport : ApiRequest → PyValue :=
  fun _ => .pstr "oauth_token=abc&oauth_token_secret=xyz"

/-! ### Theorems -/

/-- C5: `get_authorize_url` is pure string construction: for every
`base_url` and every request token binding `oauth_token` to `t`, it
returns exactly `{base_url}/plugins/servlet/oauth/authorize?oauth_token={t}`.
It takes no transport and so can make no network call. -/
theorem get_authorize_url_spec (c : JiraServerSetupClient)
    (rt : List (String × String)) (t : String)
    (h : dictLookup rt "oauth_token" = some t) :
    JiraServerSetupClient.get_authorize_url c rt =
      .ok (c.base_url ++ "/plugins/servlet/oauth/authorize?oauth_token=" ++ t) := by
  simp [JiraServerSetupClient.get_authorize_url, h,
    JiraServerSetupClient.authorize_url_fmt]

/-- Witness for C5: the concrete example from the spec. -/
theorem get_authorize_url_spec_witness :
    JiraServerSetupClient.get_authorize_url exampleSetup [("oauth_token", "T")] =
      .ok "https://jira.example.com/plugins/servlet/oauth/authorize?oauth_token=T" := by
  have h := get_authorize_url_spec exampleSetup [("oauth_token", "T")] "T" rfl
  simpa [exampleSetup] using h

/-- C7: the `SetupClient.request` override signs every call lacking an
explicit `auth` with an OAuth1 built from only `consumer_key` and
`private_key` — no resource-owner token, secret, or verifier — using
RSA-SHA1 placed in the `Authorization` header; a call that did pass
`auth` uses it unchanged. -/
theorem setup_request_auth_spec (c : JiraServerSetupClient) :
    (JiraServerSetupClient.request c none =
      some { client_key := some c.consumer_key,
             resource_owner_key := none,
             resource_owner_secret := none,
             verifier := none,
             rsa_key := some c.private_key,
             signature_method := "RSA-SHA1",
             signature_type := "auth_header" }) ∧
    (∀ a : Option OAuth1, JiraServerSetupClient.request c (some a) = a) :=
  ⟨rfl, fun _ => rfl⟩

/-- C8: parsing the URL-encoded token body
`oauth_token=abc&oauth_token_secret=xyz` with the form-decoding used by
`get_request_token` (and `get_access_token`) yields exactly the mapping
`{"oauth_token": "abc", "oauth_token_secret": "xyz"}`. -/
theorem token_response_roundtrip (c : JiraServerSetupClient) :
    (JiraServerSetupClient.get_request_token c exampleTransport).1 =
      [("oauth_token", "abc"), ("oauth_token_secret", "xyz")] ∧
    dictOf (parse_qsl "oauth_token=abc&oauth_token_secret=xyz") =
      [("oauth_token", "abc"), ("oauth_token_secret", "xyz")] :=
  ⟨rfl, rfl⟩

/-- C9: the unimplemented stubs `get_valid_statuses` and
`get_projects_list` return an empty sequence for every client state,
never raising and never issuing a request. -/
theorem stubs_return_empty (inst : Installation) :
    JiraServerClient.get_valid_statuses inst = ([], []) ∧
    JiraServerClient.get_projects_list inst = ([], []) :=
  ⟨rfl, rfl⟩

/-- C1: `get_access_token` with an empty or missing verifier returns
the signalling `ApiError` with an empty request trace — so before any
network call, and the OAuth1 construction in the other branch is never
reached; with a non-empty verifier (and a request token carrying its
two keys) it issues exactly the signed POST to the access-token URL,
whose OAuth1 carries the request-token pair and the verifier. -/
theorem get_access_token_verifier_gate (c : JiraServerSetupClient)
    (transport : ApiRequest → PyValue) (rt : List (String × String)) :
    (∀ v : Option String, (v = none ∨ v = some "") →
      JiraServerSetupClient.get_access_token c transport rt v =
        (.error (.apiError "Missing OAuth token verifier"), [])) ∧
    (∀ s tok sec : String, s ≠ "" →
      dictLookup rt "oauth_token" = some tok →
      dictLookup rt "oauth_token_secret" = some sec →
      (JiraServerSetupClient.get_access_token c transport rt (some s)).2 =
        [{ method := "POST",
           path := JiraServerSetupClient.access_token_url c.base_url,
           auth := some (some
             { client_key := some c.consumer_key,
               resource_owner_key := some tok,
               resource_owner_secret := some sec,
               verifier := some s,
               rsa_key := some c.private_key,
               signature_method := "RSA-SHA1",
               signature_type := "auth_header" }),
           allow_text := true }]) := by
  constructor
  · rintro v (rfl | rfl) <;> rfl
  · intro s tok sec hs h1 h2
    simp [JiraServerSetupClient.get_access_token, optStrFalsy, hs, h1, h2,
      SIGNATURE_RSA]

/-- Witness for C1: both branches at concrete inputs. -/
theorem get_access_token_verifier_gate_witness :
    (JiraServerSetupClient.get_access_token exampleSetup exampleTransport
        [("oauth_token", "rtok"), ("oauth_token_secret", "rsec")] (some "") =
      (.error (.apiError "Missing OAuth token verifier"), [])) ∧
    (JiraServerSetupClient.get_access_token exampleSetup exampleTransport
        [("oauth_token", "rtok"), ("oauth_token_secret", "rsec")]
        (some "verifier-code")).2 =
      [{ method := "POST",
         path := JiraServerSetupClient.access_token_url "https://jira.example.com",
         auth := some (some
           { client_key := some "sentry-consumer",
             resource_owner_key := some "rtok",
             resource_owner_secret := some "rsec",
             verifier := some "verifier-code",
             rsa_key := some "PEMKEY",
             signature_method := "RSA-SHA1",
             signature_type := "auth_header" }),
         allow_text := true }] := by
  constructor
  · exact (get_access_token_verifier_gate exampleSetup exampleTransport
      [("oauth_token", "rtok"), ("oauth_token_secret", "rsec")]).1
      (some "") (Or.inr rfl)
  · exact (get_access_token_verifier_gate exampleSetup exampleTransport
      [("oauth_token", "rtok"), ("oauth_token_secret", "rsec")]).2
      "verifier-code" "rtok" "rsec" (by decide) rfl rfl

/-- C4: a `JiraServerClient` request issued without an explicit `auth`
is signed with an OAuth1 built from the four credential values read
from the installation's identity at that very call, so two calls
against two identity states each sign with their own state's values —
no credential caching inside the client. -/
theorem request_signs_with_current_identity
    (inst1 inst2 : Installation) (ck1 pk1 atk1 ats1 ck2 pk2 atk2 ats2 : String)
    (h1 : dictLookup inst1.default_identity.data "consumer_key" = some ck1)
    (h2 : dictLookup inst1.default_identity.data "private_key" = some pk1)
    (h3 : dictLookup inst1.default_identity.data "access_token" = some atk1)
    (h4 : dictLookup inst1.default_identity.data "access_token_secret" = some ats1)
    (h5 : dictLookup inst2.default_identity.data "consumer_key" = some ck2)
    (h6 : dictLookup inst2.default_identity.data "private_key" = some pk2)
    (h7 : dictLookup inst2.default_identity.data "access_token" = some atk2)
    (h8 : dictLookup inst2.default_identity.data "access_token_secret" = some ats2) :
    JiraServerClient.request inst1 none =
      .ok (some { client_key := some ck1,
                  rsa_key := some pk1,
                  resource_owner_key := some atk1,
                  resource_owner_secret := some ats1,
                  signature_method := "RSA-SHA1",
                  signature_type := "auth_header" }) ∧
    JiraServerClient.request inst2 none =
      .ok (some { client_key := some ck2,
                  rsa_key := some pk2,
                  resource_owner_key := some atk2,
                  resource_owner_secret := some ats2,
                  signature_method := "RSA-SHA1",
                  signature_type := "auth_header" }) := by
  constructor <;>
    simp [JiraServerClient.request, requireKey, h1, h2, h3, h4, h5, h6, h7, h8,
      SIGNATURE_RSA, Except.bind, bind, pure, Except.pure]

/-- Witness for C4: two concrete identity states, second one rotated;
each call signs with its own state's values. -/
theorem request_signs_with_current_identity_witness :
    JiraServerClient.request exampleInstallation none =
      .ok (some { client_key := some "ck1",
                  rsa_key := some "pk1",
                  resource_owner_key := some "at1",
                  resource_owner_secret := some "as1",
                  signature_method := "RSA-SHA1",
                  signature_type := "auth_header" }) ∧
    JiraServerClient.request exampleInstallationRotated none =
      .ok (some { client_key := some "ck2",
                  rsa_key := some "pk2",
                  resource_owner_key := some "at2",
                  resource_owner_secret := some "as2",
                  signature_method := "RSA-SHA1",
                  signature_type := "auth_header" }) :=
  request_signs_with_current_identity exampleInstallation
    exampleInstallationRotated "ck1" "pk1" "at1" "as1" "ck2" "pk2" "at2" "as2"
    rfl rfl rfl rfl rfl rfl rfl rfl

/-- C3: `get_cached` keys the cache on `(full_url, base_url)`; a truthy
cached value is returned with no request and no cache write, while a
falsy one (absent or empty) triggers exactly one GET of `full_url`
whose result is written back with a 60-second timeout and returned. -/
theorem get_cached_cache_aside (inst : Installation) (digest : String → String)
    (store : List (String × PyValue)) (transport : ApiRequest → PyValue)
    (full_url : String) :
    (pyTruthy (cache_get store (cacheKey digest full_url inst.metadata_base_url)) = true →
      JiraServerClient.get_cached inst digest store transport full_url =
        (cache_get store (cacheKey digest full_url inst.metadata_base_url), [], [])) ∧
    (pyTruthy (cache_get store (cacheKey digest full_url inst.metadata_base_url)) = false →
      JiraServerClient.get_cached inst digest store transport full_url =
        (transport { method := "GET", path := full_url },
         [{ method := "GET", path := full_url }],
         [{ key := cacheKey digest full_url inst.metadata_base_url,
            value := transport { method := "GET", path := full_url },
            timeout := 60 }])) := by
  constructor <;> intro h <;> simp [JiraServerClient.get_cached, h]

/-- Witness for C3: a hit on a truthy cached value returns it without
a request; an empty cache leads to a GET plus a 60-second write. -/
theorem get_cached_cache_aside_witness :
    (JiraServerClient.get_cached exampleInstallation id
        [("sentry-jira-server:/rest/api/2/priority:https://jira.example.com",
          .pstr "cached-body")]
        exampleTransport "/rest/api/2/priority" =
      (.pstr "cached-body", [], [])) ∧
    (JiraServerClient.get_cached exampleInstallation id []
        exampleTransport "/rest/api/2/priority" =
      (exampleTransport { method := "GET", path := "/rest/api/2/priority" },
       [{ method := "GET", path := "/rest/api/2/priority" }],
       [{ key := "sentry-jira-server:/rest/api/2/priority:https://jira.example.com",
          value := exampleTransport { method := "GET", path := "/rest/api/2/priority" },
          timeout := 60 }])) := by
  constructor
  · have h := (get_cached_cache_aside exampleInstallation id
      [("sentry-jira-server:/rest/api/2/priority:https://jira.example.com",
        .pstr "cached-body")]
      exampleTransport "/rest/api/2/priority").1 (by decide)
    simpa [exampleInstallation] using h
  · have h := (get_cached_cache_aside exampleInstallation id []
      exampleTransport "/rest/api/2/priority").2 (by decide)
    simpa [exampleInstallation] using h

/-- C6: `create_issue_webhook` signs with the access-token credentials
taken from its `credentials` argument and POSTs to
`/rest/webhooks/1.0/webhook` a body with the fixed name, the absolute
callback URL embedding the token encoding `{id: external_id}` signed
with `secret`, and exactly the two issue events. -/
theorem create_issue_webhook_spec
    (jwt_encode : List (String × String) → String → String)
    (reverse_issue_updated absolute_uri : String → String)
    (transport : ApiRequest → PyValue)
    (external_id secret : String) (credentials : List (String × String))
    (ck pk atk ats : String)
    (h1 : dictLookup credentials "consumer_key" = some ck)
    (h2 : dictLookup credentials "private_key" = some pk)
    (h3 : dictLookup credentials "access_token" = some atk)
    (h4 : dictLookup credentials "access_token_secret" = some ats) :
    JiraServerSetupClient.create_issue_webhook jwt_encode reverse_issue_updated
        absolute_uri transport external_id secret credentials =
      .ok
        (transport
           { method := "POST",
             path := "/rest/webhooks/1.0/webhook",
             data := some (.pdict
               [("name", .pstr "Sentry Issue Sync"),
                ("url", .pstr (absolute_uri (reverse_issue_updated
                   (jwt_encode [("id", external_id)] secret)))),
                ("events", .plist [.pstr "jira:issue_created",
                                   .pstr "jira:issue_updated"])]),
             auth := some (some
               { client_key := some ck,
                 rsa_key := some pk,
                 resource_owner_key := some atk,
                 resource_owner_secret := some ats,
                 signature_method := "RSA-SHA1",
                 signature_type := "auth_header" }) },
         [{ method := "POST",
            path := "/rest/webhooks/1.0/webhook",
            data := some (.pdict
              [("name", .pstr "Sentry Issue Sync"),
               ("url", .pstr (absolute_uri (reverse_issue_updated
                  (jwt_encode [("id", external_id)] secret)))),
               ("events", .plist [.pstr "jira:issue_created",
                                  .pstr "jira:issue_updated"])]),
            auth := some (some
              { client_key := some ck,
                rsa_key := some pk,
                resource_owner_key := some atk,
                resource_owner_secret := some ats,
                signature_method := "RSA-SHA1",
                signature_type := "auth_header" }) }]) := by
  simp [JiraServerSetupClient.create_issue_webhook, requireKey, h1, h2, h3, h4,
    SIGNATURE_RSA, Except.bind, bind, pure, Except.pure]

/-- `jwt.encode` stand-in used for concrete evaluation. -/
def exampleJwtEncode : List (String × String) → String → String :=
  fun claims secret =>
    "jwt." ++ String.intercalate "," (claims.map (fun p => p.1 ++ "=" ++ p.2))
      ++ "." ++ secret

/-- Django `reverse` stand-in for the issue-updated route. -/
def exampleReverseIssueUpdated : String → String :=
  fun token => "/extensions/jira-server/issue-updated/" ++ token ++ "/"

/-- `absolute_uri` stand-in. -/
def exampleAbsoluteUri : String → String :=
  fun path => "https://sentry.example.com" ++ path

/-- Witness for C6: concrete credentials and collaborators. -/
theorem create_issue_webhook_spec_witness :
    JiraServerSetupClient.create_issue_webhook exampleJwtEncode
        exampleReverseIssueUpdated exampleAbsoluteUri exampleTransport
        "ext-1" "shared-secret"
        [("consumer_key", "ckW"), ("private_key", "pkW"),
         ("access_token", "atW"), ("access_token_secret", "asW")] =
      .ok
        (exampleTransport
           { method := "POST",
             path := "/rest/webhooks/1.0/webhook",
             data := some (.pdict
               [("name", .pstr "Sentry Issue Sync"),
                ("url", .pstr (exampleAbsoluteUri (exampleReverseIssueUpdated
                   (exampleJwtEncode [("id", "ext-1")] "shared-secret")))),
                ("events", .plist [.pstr "jira:issue_created",
                                   .pstr "jira:issue_updated"])]),
             auth := some (some
               { client_key := some "ckW",
                 rsa_key := some "pkW",
                 resource_owner_key := some "atW",
                 resource_owner_secret := some "asW",
                 signature_method := "RSA-SHA1",
                 signature_type := "auth_header" }) },
         [{ method := "POST",
            path := "/rest/webhooks/1.0/webhook",
            data := some (.pdict
              [("name", .pstr "Sentry Issue Sync"),
               ("url", .pstr (exampleAbsoluteUri (exampleReverseIssueUpdated
                  (exampleJwtEncode [("id", "ext-1")] "shared-secret")))),
               ("events", .plist [.pstr "jira:issue_created",
                                  .pstr "jira:issue_updated"])]),
            auth := some (some
              { client_key := some "ckW",
                rsa_key := some "pkW",
                resource_owner_key := some "atW",
                resource_owner_secret := some "asW",
                signature_method := "RSA-SHA1",
                signature_type := "auth_header" }) }]) :=
  create_issue_webhook_spec exampleJwtEncode exampleReverseIssueUpdated
    exampleAbsoluteUri exampleTransport "ext-1" "shared-secret"
    [("consumer_key", "ckW"), ("private_key", "pkW"),
     ("access_token", "atW"), ("access_token_secret", "asW")]
    "ckW" "pkW" "atW" "asW" rfl rfl rfl rfl

/-- Every character of a string matched by the issue-id pattern is a
letter, a digit, the hyphen, or the trailing newline. -/
theorem matchIssueChars_classes (cs : List Char) (h : matchIssueChars cs = true) :
    ∀ c ∈ cs, isAsciiLetter c = true ∨ isAsciiDigit c = true ∨ c = '-' ∨ c = '\n' := by
  intro c hc
  simp only [matchIssueChars] at h
  split at h
  case h_2 => exact absurd h (by simp)
  case h_1 rest2 heq =>
    rw [Bool.and_eq_true, Bool.and_eq_true] at h
    obtain ⟨⟨-, -⟩, hrest⟩ := h
    rw [← List.takeWhile_append_dropWhile isAsciiLetter cs] at hc
    rcases List.mem_append.mp hc with htk | hdr
    · exact Or.inl (List.mem_takeWhile_imp htk)
    · rw [heq] at hdr
      rcases List.mem_cons.mp hdr with rfl | h3
      · exact Or.inr (Or.inr (Or.inl rfl))
      · rw [← List.takeWhile_append_dropWhile isAsciiDigit rest2] at h3
        rcases List.mem_append.mp h3 with h4 | h5
        · exact Or.inr (Or.inl (List.mem_takeWhile_imp h4))
        · rw [Bool.or_eq_true, beq_iff_eq, beq_iff_eq] at hrest
          rcases hrest with hnil | hnl
          · rw [hnil] at h5; cases h5
          · rw [hnl] at h5
            rcases List.mem_singleton.mp h5 with rfl
            exact Or.inr (Or.inr (Or.inr rfl))

/-- A query matched by the issue-id pattern contains no double quote. -/
theorem matched_query_no_quote (q : String) (h : matchesIssuePattern q = true) :
    ∀ c ∈ q.data, c ≠ '"' := by
  intro c hc heq
  have hcl := matchIssueChars_classes q.data h c hc
  subst heq
  exact absurd hcl (by decide)

/-- Quote escaping is the identity on quote-free character lists. -/
theorem flatten_escape_eq_self (cs : List Char) (h : ∀ c ∈ cs, c ≠ '"') :
    (cs.map escapeQuoteChar).flatten = cs := by
  induction cs with
  | nil => rfl
  | cons c rest ih =>
    have hc : c ≠ '"' := h c (List.mem_cons_self c rest)
    have hr : ∀ x ∈ rest, x ≠ '"' := fun x hx => h x (List.mem_cons_of_mem c hx)
    simp [escapeQuoteChar, hc, ih hr]

/-- Quote escaping is the identity on quote-free strings. -/
theorem escapeQuotes_eq_self (q : String) (h : ∀ c ∈ q.data, c ≠ '"') :
    escapeQuotes q = q := by
  unfold escapeQuotes
  rw [flatten_escape_eq_self q.data h]

/-- C2: `search_issues` GETs the search endpoint with JQL
`id="<query>"` (quotes escaped) exactly when the query matches the
issue-id pattern, and `text ~ "<query>"` (quotes escaped) otherwise;
concretely, `ABC-123` gives an id clause, `foo "bar"` an escaped text
clause, and `ABC-123-extra` a text clause rather than an id one. -/
theorem search_issues_jql_spec (inst : Installation)
    (transport : ApiRequest → PyValue) :
    (∀ q, matchesIssuePattern q = true →
      (JiraServerClient.search_issues inst transport q).2 =
        [{ method := "GET", path := SEARCH_URL,
           params := [("jql", "id=\"" ++ escapeQuotes q ++ "\"")] }]) ∧
    (∀ q, matchesIssuePattern q = false →
      (JiraServerClient.search_issues inst transport q).2 =
        [{ method := "GET", path := SEARCH_URL,
           params := [("jql", "text ~ \"" ++ escapeQuotes q ++ "\"")] }]) ∧
    matchesIssuePattern "ABC-123" = true ∧
    (JiraServerClient.search_issues inst transport "ABC-123").2 =
      [{ method := "GET", path := SEARCH_URL,
         params := [("jql", "id=\"ABC-123\"")] }] ∧
    matchesIssuePattern "foo \"bar\"" = false ∧
    (JiraServerClient.search_issues inst transport "foo \"bar\"").2 =
      [{ method := "GET", path := SEARCH_URL,
         params := [("jql", "text ~ \"foo \\\"bar\\\"\"")] }] ∧
    matchesIssuePattern "ABC-123-extra" = false ∧
    (JiraServerClient.search_issues inst transport "ABC-123-extra").2 =
      [{ method := "GET", path := SEARCH_URL,
         params := [("jql", "text ~ \"ABC-123-extra\"")] }] := by
  refine ⟨?_, ?_, by decide, by rfl, by decide, by rfl, by decide, by rfl⟩
  · intro q h
    simp [JiraServerClient.search_issues, searchJql, h]
  · intro q h
    simp [JiraServerClient.search_issues, searchJql, h]

/-- Witness for C2: the id branch at `ABC-123`, the text branch at
`foo "bar"`, hypotheses discharged by evaluation. -/
theorem search_issues_jql_spec_witness :
    (JiraServerClient.search_issues exampleInstallation exampleTransport
        "ABC-123").2 =
      [{ method := "GET", path := SEARCH_URL,
         params := [("jql", "id=\"" ++ escapeQuotes "ABC-123" ++ "\"")] }] ∧
    (JiraServerClient.search_issues exampleInstallation exampleTransport
        "foo \"bar\"").2 =
      [{ method := "GET", path := SEARCH_URL,
         params := [("jql", "text ~ \"" ++ escapeQuotes "foo \"bar\"" ++ "\"")] }] :=
  ⟨(search_issues_jql_spec exampleInstallation exampleTransport).1
      "ABC-123" (by decide),
   (search_issues_jql_spec exampleInstallation exampleTransport).2.1
      "foo \"bar\"" (by decide)⟩

/-- C10: a query matched by the issue-id pattern cannot contain a
double quote, so the escaping in the id branch is a no-op and the JQL
embeds the query verbatim: `id="<query>"`. -/
theorem issue_pattern_id_clause_verbatim (inst : Installation)
    (transport : ApiRequest → PyValue) (q : String)
    (h : matchesIssuePattern q = true) :
    '"' ∉ q.data ∧ escapeQuotes q = q ∧
    (JiraServerClient.search_issues inst transport q).2 =
      [{ method := "GET", path := SEARCH_URL,
         params := [("jql", "id=\"" ++ q ++ "\"")] }] := by
  have hq : ∀ c ∈ q.data, c ≠ '"' := matched_query_no_quote q h
  have hesc := escapeQuotes_eq_self q hq
  refine ⟨fun hmem => hq '"' hmem rfl, hesc, ?_⟩
  simp [JiraServerClient.search_issues, searchJql, h, hesc]

/-- Witness for C10: the verbatim id clause for `SEN-42`. -/
theorem issue_pattern_id_clause_verbatim_witness :
    '"' ∉ "SEN-42".data ∧ escapeQuotes "SEN-42" = "SEN-42" ∧
    (JiraServerClient.search_issues exampleInstallation exampleTransport
        "SEN-42").2 =
      [{ method := "GET", path := SEARCH_URL,
         params := [("jql", "id=\"" ++ "SEN-42" ++ "\"")] }] :=
  issue_pattern_id_clause_verbatim exampleInstallation exampleTransport
    "SEN-42" (by decide)
